import Mathlib

/-!
Shallow embedding of the trigger-to-template dispatch engine of
`templatesvc` (src/src/templatesvc.c) and proofs about its behaviour.

The embedding keeps the C source's structure: linked lists become `List`,
the mutable fields of `Template` (`fd`, `mq`) are threaded explicitly,
and the external collaborators (the variable server, the rendering engine
`TEMPLATE_FileToFile`, and the POSIX `open`/`mq_open`/`mq_send` calls)
are supplied as oracle parameters describing the outcome of each call.
-/

set_option autoImplicit false

namespace TemplateSvc

/-! ### Error codes (Linux errno values used by the source) -/

def EOK : Int := 0

def EINVAL : Int := 22

def ENOENT : Int := 2

def EBADF : Int := 9

/-- `VAR_INVALID` from varserver: the invalid variable handle, 0. -/
def VAR_INVALID : Nat := 0

/-! ### Data model (structs from templatesvc.c) -/

/-- Template output kind, from `enum templateType`. -/
inductive TemplateType where
  | TMPL_FD : TemplateType
  | TMPL_MQ : TemplateType
deriving DecidableEq, Repr

/-- `struct triggerVar`: a trigger variable name and its cached handle.
The `pNext` chain becomes a `List TriggerVar` at the use sites. -/
structure TriggerVar where
  hVar : Nat
  name : String
deriving DecidableEq, Repr

/-- `struct template`: one configured template.  `templateFileName` and
`target` are `Option` because `JSON_GetStr` returns NULL when the key is
missing and `SetupTemplate` stores the result unchecked.  `fd` and `mq`
are the mutable sink-state fields (-1 resp. non-positive means closed). -/
structure Template where
  pTriggers : List TriggerVar
  templateFileName : Option String
  target : Option String
  type : TemplateType
  fd : Int
  mq : Int
  keep_open : Bool
  append : Bool
deriving DecidableEq, Repr

/-! ### SetupTriggerNotification / SetupTriggerNotifications

`find` models `VAR_FindByName` (returns `VAR_INVALID` when the name does
not resolve), `notify` models `VAR_Notify`'s status for a handle. -/

/-- Embedding of `SetupTriggerNotification`: stores the resolution result
into the trigger's `hVar` field and returns the per-trigger status,
`ENOENT` when the name did not resolve. -/
def SetupTriggerNotification (find : String → Nat) (notify : Nat → Int)
    (tv : TriggerVar) : Int × TriggerVar :=
  let h := find tv.name
  let tv' : TriggerVar := { tv with hVar := h }
  if h ≠ VAR_INVALID then (notify h, tv') else (ENOENT, tv')

/-- Per-trigger statuses produced by walking a trigger list. -/
def triggerStatuses (find : String → Nat) (notify : Nat → Int)
    (tvs : List TriggerVar) : List Int :=
  tvs.map (fun tv => (SetupTriggerNotification find notify tv).1)

/-- The loop body of `SetupTriggerNotifications`: walks the trigger list,
updating `result` to each non-`EOK` per-trigger status (last failure wins)
and threading the mutated trigger records. -/
def setupTriggersGo (find : String → Nat) (notify : Nat → Int) :
    List TriggerVar → Int → Int × List TriggerVar
  | [], result => (result, [])
  | tv :: rest, result =>
      let r := SetupTriggerNotification find notify tv
      let next := setupTriggersGo find notify rest (if r.1 ≠ EOK then r.1 else result)
      (next.1, r.2 :: next.2)

/-- Value of the local variable `result` at the end of
`SetupTriggerNotifications`, together with the updated trigger list.
The C function computes this value (EINVAL for a NULL list, else the
last-failure-wins fold started at EOK) but then falls off the end
without a `return` statement, so the value the caller sees is undefined;
this definition models the computed aggregate itself. -/
def SetupTriggerNotificationsLocal (find : String → Nat) (notify : Nat → Int)
    (tvs : List TriggerVar) : Int × List TriggerVar :=
  match tvs with
  | [] => (EINVAL, [])
  | _ :: _ => setupTriggersGo find notify tvs EOK

/-! ### Status aggregation, written from the spec's words
("returns OK if all succeeded; the status of the last failure otherwise") -/

/-- Last-failure-wins fold over a status list, starting from `acc`. -/
def lastFailureAux (acc : Int) (rcs : List Int) : Int :=
  rcs.foldl (fun a rc => if rc ≠ EOK then rc else a) acc

/-- Aggregate status per the spec: EOK when every status is EOK,
otherwise the last non-EOK status in order. -/
def lastFailure (rcs : List Int) : Int :=
  lastFailureAux EOK rcs

theorem lastFailureAux_cons (acc rc : Int) (rest : List Int) :
    lastFailureAux acc (rc :: rest) =
      lastFailureAux (if rc ≠ EOK then rc else acc) rest := rfl

theorem lastFailureAux_eok_of_all (acc : Int) (rcs : List Int)
    (h : ∀ rc ∈ rcs, rc = EOK) : lastFailureAux acc rcs = acc := by
  induction rcs generalizing acc with
  | nil => rfl
  | cons rc rest ih =>
      have hrc : rc = EOK := h rc (List.mem_cons_self rc rest)
      rw [lastFailureAux_cons, if_neg (by simp [hrc])]
      exact ih acc (fun r hr => h r (List.mem_cons_of_mem rc hr))

theorem lastFailureAux_eok_iff (acc : Int) (rcs : List Int) :
    lastFailureAux acc rcs = EOK ↔ (acc = EOK ∧ ∀ rc ∈ rcs, rc = EOK) := by
  induction rcs generalizing acc with
  | nil =>
      simp [lastFailureAux]
  | cons rc rest ih =>
      rw [lastFailureAux_cons]
      by_cases hrc : rc = EOK
      · rw [if_neg (by simp [hrc]), ih]
        simp [hrc, List.forall_mem_cons]
      · rw [if_pos hrc, ih]
        simp [hrc, List.forall_mem_cons]

theorem lastFailureAux_mem (acc : Int) (rcs : List Int)
    (h : ∃ rc ∈ rcs, rc ≠ EOK) :
    lastFailureAux acc rcs ∈ rcs ∧ lastFailureAux acc rcs ≠ EOK := by
  induction rcs generalizing acc with
  | nil => simp at h
  | cons rc rest ih =>
      rw [lastFailureAux_cons]
      by_cases hrest : ∃ r ∈ rest, r ≠ EOK
      · have := ih (if rc ≠ EOK then rc else acc) hrest
        exact ⟨List.mem_cons_of_mem rc this.1, this.2⟩
      · have hall : ∀ r ∈ rest, r = EOK := by
          push_neg at hrest
          exact hrest
        have hrc : rc ≠ EOK := by
          rcases h with ⟨r, hr, hne⟩
          rcases List.mem_cons.mp hr with h1 | h2
          · exact h1 ▸ hne
          · exact absurd (hall r h2) hne
        rw [if_pos hrc, lastFailureAux_eok_of_all rc rest hall]
        exact ⟨List.mem_cons_self rc rest, hrc⟩

theorem setupTriggersGo_fst (find : String → Nat) (notify : Nat → Int)
    (tvs : List TriggerVar) (acc : Int) :
    (setupTriggersGo find notify tvs acc).1 =
      lastFailureAux acc (triggerStatuses find notify tvs) := by
  induction tvs generalizing acc with
  | nil => rfl
  | cons tv rest ih =>
      simp only [setupTriggersGo, triggerStatuses, List.map_cons, lastFailureAux,
        List.foldl_cons]
      exact ih _

/-! ### ConfigModel: SetupTriggers / SetupTemplate

A configuration entry as `SetupTemplate` reads it out of the JSON node:
`JSON_GetStr` yields `none` for a missing key, `JSON_GetBool` defaults to
`false`. -/

/-- One entry of the top-level `config` array. -/
structure ConfigEntry where
  template : Option String
  type : Option String
  target : Option String
  append : Bool
  keep_open : Bool
  trigger : List String
deriving DecidableEq, Repr

/-- Embedding of the `SetupTriggers` callback folded over the `trigger`
array: each name is prepended to the trigger list (head insertion), with
`hVar` zero-initialised by `calloc` (= `VAR_INVALID`). -/
def mkTriggers (names : List String) : List TriggerVar :=
  names.foldl (fun acc nm => { hVar := VAR_INVALID, name := nm } :: acc) []

/-- Embedding of `SetupTemplate` for one configuration entry: reads the
fields (unchecked), allocates the `Template` with `fd = -1`, `mq = 0`,
resolves the triggers via `SetupTriggerNotifications` (which mutates each
trigger's `hVar`), and unconditionally inserts the template at the head
of the registry, returning EOK. -/
def SetupTemplate (find : String → Nat) (notify : Nat → Int)
    (e : ConfigEntry) (templates : List Template) : Int × List Template :=
  let tt : TemplateType :=
    match e.type with
    | some s => if s = "mq" then TemplateType.TMPL_MQ else TemplateType.TMPL_FD
    | none => TemplateType.TMPL_FD
  let trigs := mkTriggers e.trigger
  let bound := (SetupTriggerNotificationsLocal find notify trigs).2
  let t : Template :=
    { pTriggers := bound
      templateFileName := e.template
      target := e.target
      type := tt
      fd := -1
      mq := 0
      keep_open := e.keep_open
      append := e.append }
  (EOK, t :: templates)

/-! ### OutputSink, Stream variant: PrintTemplateFD

The POSIX calls are modelled by an environment describing their outcomes
for one invocation.  `open` of the target uses flags
`O_WRONLY | O_CREAT` (plus `O_APPEND` when `append` is set); there is no
`O_TRUNC`, so an existing target keeps its bytes and a fresh descriptor
writes from offset zero (or at end-of-file under `O_APPEND`). -/

/-- Outcomes of the external calls in one `PrintTemplateFD` invocation:
the two `open` results and what `TEMPLATE_FileToFile` returns and writes
to the destination descriptor. -/
structure FDEnv where
  srcFd : Int
  tgtFd : Int
  renderStatus : Int
  renderOut : List Nat
deriving DecidableEq, Repr

/-- The target file's byte content together with the write offset of the
template's open destination descriptor (meaningful while `fd ≠ -1`).
A missing target file is the empty content (`O_CREAT` creates it). -/
structure TargetFile where
  data : List Nat
  ofs : Nat
deriving DecidableEq, Repr

/-- POSIX write of `out` into `file` at offset `ofs`: bytes before the
offset are kept, the written range is replaced, bytes after it are kept
(a gap beyond end-of-file is zero-filled). -/
def fdWrite (file : List Nat) (ofs : Nat) (out : List Nat) : List Nat :=
  file.take ofs ++ List.replicate (ofs - file.length) 0 ++ out
    ++ file.drop (ofs + out.length)

theorem fdWrite_zero (file out : List Nat) :
    fdWrite file 0 out = out ++ file.drop out.length := by
  simp [fdWrite]

theorem fdWrite_at_length (file out : List Nat) :
    fdWrite file file.length out = file ++ out := by
  simp [fdWrite, List.drop_eq_nil_of_le (Nat.le_add_right _ _)]

/-- Embedding of `PrintTemplateFD`.  Returns the C result value, the
updated template (its `fd` field is the sink state) and the updated
target file.  The render's bytes are written whenever both descriptors
are usable; for a failing render the environment chooses the (possibly
partial) `renderOut`. -/
def PrintTemplateFD (t : Template) (tf : TargetFile) (env : FDEnv) :
    Int × Template × TargetFile :=
  match t.templateFileName, t.target with
  | some _, some _ =>
      let fd := env.srcFd
      let t1 : Template := if t.fd = -1 then { t with fd := env.tgtFd } else t
      let tf1 : TargetFile := if t.fd = -1 then { tf with ofs := 0 } else tf
      if fd > 0 ∧ t1.fd > 0 then
        let pos := if t.append then tf1.data.length else tf1.ofs
        let tf2 : TargetFile :=
          { data := fdWrite tf1.data pos env.renderOut
            ofs := pos + env.renderOut.length }
        let t2 : Template := if t.keep_open = false then { t1 with fd := -1 } else t1
        (env.renderStatus, t2, tf2)
      else
        (ENOENT, t1, tf1)
  | _, _ => (ENOENT, t, tf)

/-! ### OutputSink, Queue variant: PrintTemplateMQ

`varFd` is the descriptor of the process-wide VarFP scratch buffer; the
render is preceded by `lseek(varFd, 0, SEEK_SET)`, so the render's bytes
always land at offset zero of the scratch buffer.  The message sent is
`strlen(pData)` bytes from the buffer start, i.e. the bytes up to the
first NUL. -/

/-- Outcomes of the external calls in one `PrintTemplateMQ` invocation. -/
structure MQEnv where
  srcFd : Int
  renderStatus : Int
  renderOut : List Nat
  mqOpenFd : Int
  sendOk : Bool
  sendErrno : Int
deriving DecidableEq, Repr

/-- The shared scratch buffer: its byte content and the current offset of
the `varFd` descriptor. -/
structure ScratchBuf where
  data : List Nat
  ofs : Nat
deriving DecidableEq, Repr

/-- Embedding of `PrintTemplateMQ`.  Returns the C result value, the
updated template (its `mq` field is the sink state), the updated scratch
buffer, and the message sent on the queue, if any.  `VARFP_GetData` is
modelled as always returning the buffer (the buffer exists whenever
`varFd > 0`). -/
def PrintTemplateMQ (varFd : Int) (t : Template) (sb : ScratchBuf) (env : MQEnv) :
    Int × Template × ScratchBuf × Option (List Nat) :=
  match t.templateFileName, t.target with
  | some _, some _ =>
      if varFd > 0 then
        if env.srcFd > 0 then
          let data' := fdWrite sb.data 0 env.renderOut
          let sb1 : ScratchBuf := { data := data', ofs := env.renderOut.length }
          if env.renderStatus = EOK then
            let m := if t.mq ≤ 0 then env.mqOpenFd else t.mq
            let t1 : Template := { t with mq := m }
            if m > 0 then
              let msg := data'.takeWhile (fun b => b ≠ 0)
              let result := if env.sendOk then EOK else env.sendErrno
              let t2 : Template :=
                if result ≠ EOK ∨ t1.keep_open = false then { t1 with mq := -1 } else t1
              (result, t2, sb1, some msg)
            else
              (EBADF, t1, sb1, none)
          else
            (env.renderStatus, t, sb1, none)
        else
          (ENOENT, t, sb, none)
      else
        (ENOENT, t, sb, none)
  | _, _ => (ENOENT, t, sb, none)

/-! ### Dispatcher: ProcessTemplate / ProcessTemplates

For the dispatch-level claims the two sink renders are abstracted as
oracles giving the result of the k-th render invocation of the pass;
the dispatch logic uses only the returned status, so any sink behaviour
is covered.  The second component returned by `ProcessTemplate` counts
how many times the sink render was invoked during the call. -/

/-- The trigger-matching loop of `ProcessTemplate`: for every trigger
whose handle equals `hVar`, `result` is overwritten with the outcome of
a fresh sink-render invocation (dispatched on the template type) and the
invocation counter `k` advances.  The loop does not stop at the first
match. -/
def processTriggerList (rFD rMQ : Nat → Int) (ty : TemplateType) (hVar : Nat) :
    List TriggerVar → Int → Nat → Int × Nat
  | [], result, k => (result, k)
  | tv :: rest, result, k =>
      if tv.hVar = hVar then
        let rc : Int :=
          match ty with
          | TemplateType.TMPL_FD => rFD k
          | TemplateType.TMPL_MQ => rMQ k
        processTriggerList rFD rMQ ty hVar rest rc (k + 1)
      else
        processTriggerList rFD rMQ ty hVar rest result k

/-- Embedding of `ProcessTemplate`: guards against `VAR_INVALID`, then
runs the matching loop with `result` initialised to EINVAL.  Returns the
C result value and the number of sink-render invocations. -/
def ProcessTemplate (rFD rMQ : Nat → Int) (t : Template) (hVar : Nat) :
    Int × Nat :=
  if hVar = VAR_INVALID then (EINVAL, 0)
  else processTriggerList rFD rMQ t.type hVar t.pTriggers EINVAL 0

/-- Number of trigger entries of `t` whose cached handle equals `hVar`. -/
def matchCount (t : Template) (hVar : Nat) : Nat :=
  (t.pTriggers.filter (fun tv => tv.hVar = hVar)).length

theorem processTriggerList_count (rFD rMQ : Nat → Int) (ty : TemplateType)
    (hVar : Nat) (tvs : List TriggerVar) (result : Int) (k : Nat) :
    (processTriggerList rFD rMQ ty hVar tvs result k).2 =
      k + (tvs.filter (fun tv => tv.hVar = hVar)).length := by
  induction tvs generalizing result k with
  | nil => simp [processTriggerList]
  | cons tv rest ih =>
      by_cases h : tv.hVar = hVar
      · simp only [processTriggerList, if_pos h, ih, List.filter_cons,
          decide_eq_true h]
        simp
        omega
      · simp only [processTriggerList, if_neg h, ih, List.filter_cons]
        simp [h]

/-- The loop of `ProcessTemplates`: visits every template in order, calls
`ProcessTemplate` on each (the oracles are additionally indexed by the
template's position `i`), and overwrites `result` with every non-EOK
per-template status. -/
def ProcessTemplatesGo (rFD rMQ : Nat → Nat → Int) (hVar : Nat) :
    List Template → Nat → Int → Int
  | [], _, result => result
  | t :: rest, i, result =>
      let rc := (ProcessTemplate (rFD i) (rMQ i) t hVar).1
      ProcessTemplatesGo rFD rMQ hVar rest (i + 1) (if rc ≠ EOK then rc else result)

/-- Embedding of `ProcessTemplates`: `result` starts at EOK (after the
non-NULL state check) and the whole registry is walked with no
short-circuit. -/
def ProcessTemplates (rFD rMQ : Nat → Nat → Int) (ts : List Template)
    (hVar : Nat) : Int :=
  ProcessTemplatesGo rFD rMQ hVar ts 0 EOK

/-- The list of per-template statuses `ProcessTemplates` folds over,
starting from template index `i`. -/
def templateStatusesFrom (rFD rMQ : Nat → Nat → Int) (hVar : Nat) :
    List Template → Nat → List Int
  | [], _ => []
  | t :: rest, i =>
      (ProcessTemplate (rFD i) (rMQ i) t hVar).1 ::
        templateStatusesFrom rFD rMQ hVar rest (i + 1)

/-- Per-template statuses of one dispatch pass, in registry order. -/
def templateStatuses (rFD rMQ : Nat → Nat → Int) (ts : List Template)
    (hVar : Nat) : List Int :=
  templateStatusesFrom rFD rMQ hVar ts 0

theorem ProcessTemplatesGo_eq_lastFailureAux (rFD rMQ : Nat → Nat → Int)
    (hVar : Nat) (ts : List Template) (i : Nat) (acc : Int) :
    ProcessTemplatesGo rFD rMQ hVar ts i acc =
      lastFailureAux acc (templateStatusesFrom rFD rMQ hVar ts i) := by
  induction ts generalizing i acc with
  | nil => rfl
  | cons t rest ih =>
      simp only [ProcessTemplatesGo, templateStatusesFrom, lastFailureAux_cons]
      exact ih _ _

/-- The template `SetupTemplate` builds and inserts for one entry. -/
def newTemplate (find : String → Nat) (notify : Nat → Int)
    (e : ConfigEntry) : Template :=
  { pTriggers := (SetupTriggerNotificationsLocal find notify (mkTriggers e.trigger)).2
    templateFileName := e.template
    target := e.target
    type :=
      match e.type with
      | some s => if s = "mq" then TemplateType.TMPL_MQ else TemplateType.TMPL_FD
      | none => TemplateType.TMPL_FD
    fd := -1
    mq := 0
    keep_open := e.keep_open
    append := e.append }

theorem PrintTemplateFD_no_src_name (t : Template) (tf : TargetFile) (env : FDEnv)
    (h : t.templateFileName = none) : PrintTemplateFD t tf env = (ENOENT, t, tf) := by
  unfold PrintTemplateFD
  rw [h]

theorem PrintTemplateFD_no_target (t : Template) (tf : TargetFile) (env : FDEnv)
    (h : t.target = none) : PrintTemplateFD t tf env = (ENOENT, t, tf) := by
  unfold PrintTemplateFD
  rw [h]
  rcases t.templateFileName with _ | f <;> rfl

theorem PrintTemplateMQ_no_src_name (varFd : Int) (t : Template) (sb : ScratchBuf)
    (env : MQEnv) (h : t.templateFileName = none) :
    PrintTemplateMQ varFd t sb env = (ENOENT, t, sb, none) := by
  unfold PrintTemplateMQ
  rw [h]

theorem PrintTemplateMQ_no_target (varFd : Int) (t : Template) (sb : ScratchBuf)
    (env : MQEnv) (h : t.target = none) :
    PrintTemplateMQ varFd t sb env = (ENOENT, t, sb, none) := by
  unfold PrintTemplateMQ
  rw [h]
  rcases t.templateFileName with _ | f <;> rfl

/-! ## Claims -/

/-! ### C1: one render per matching notification, even with duplicate triggers -/

/-- A template whose two trigger entries carry the same handle 5. -/
def tC1 : Template :=
  { pTriggers := [⟨5, "a"⟩, ⟨5, "b"⟩], templateFileName := some "tmpl",
    target := some "tgt", type := TemplateType.TMPL_FD, fd := -1, mq := 0,
    keep_open := false, append := false }

/-- Claim C1 as stated is false: for a template whose two trigger entries
both carry the notified handle 5, one dispatch pass invokes the sink
render twice, not exactly once. -/
theorem C1_counterexample :
    (ProcessTemplate (fun _ => EOK) (fun _ => EOK) tC1 5).2 = 2 ∧
      (ProcessTemplate (fun _ => EOK) (fun _ => EOK) tC1 5).2 ≠ 1 := by
  constructor
  · rfl
  · decide

/-- Claim C1 amended: for a notified handle that is not VAR_INVALID,
the sink render is invoked once per matching trigger entry, i.e. exactly
matchCount times — so exactly once precisely when exactly one of the
template's trigger entries carries the notified handle. -/
theorem C1_amended (rFD rMQ : Nat → Int) (t : Template) (hVar : Nat)
    (h : hVar ≠ VAR_INVALID) :
    (ProcessTemplate rFD rMQ t hVar).2 = matchCount t hVar := by
  unfold ProcessTemplate
  rw [if_neg h]
  rw [processTriggerList_count]
  simp [matchCount]

theorem C1_witness :
    (ProcessTemplate (fun _ => EOK) (fun _ => EOK) tC1 5).2 = matchCount tC1 5 :=
  C1_amended (fun _ => EOK) (fun _ => EOK) tC1 5 (by decide)

/-! ### C2: aggregation of a dispatch pass over the registry -/

/-- A template whose single trigger handle 3 does not match handle 5. -/
def tC2 : Template :=
  { pTriggers := [⟨3, "a"⟩], templateFileName := some "tmpl",
    target := some "tgt", type := TemplateType.TMPL_FD, fd := -1, mq := 0,
    keep_open := false, append := false }

/-- Claim C2 as stated is false: with a registry holding one template
that does not match the notified handle 5, no template matches (so all
matched templates vacuously rendered successfully), yet ProcessTemplates
returns EINVAL, not EOK. -/
theorem C2_counterexample :
    matchCount tC2 5 = 0 ∧
      ProcessTemplates (fun _ _ => EOK) (fun _ _ => EOK) [tC2] 5 = EINVAL ∧
      ProcessTemplates (fun _ _ => EOK) (fun _ _ => EOK) [tC2] 5 ≠ EOK := by
  refine ⟨rfl, rfl, ?_⟩
  decide

/-- Claim C2 amended: ProcessTemplates visits every template (the result
is a last-failure-wins fold over the per-template statuses of the whole
registry, with no short-circuit), where a template none of whose triggers
match contributes EINVAL; hence EOK is returned exactly when every
template in the registry (not merely every matched one) reports EOK. -/
theorem C2_amended (rFD rMQ : Nat → Nat → Int) (ts : List Template) (hVar : Nat) :
    ProcessTemplates rFD rMQ ts hVar =
        lastFailure (templateStatuses rFD rMQ ts hVar) ∧
      (ProcessTemplates rFD rMQ ts hVar = EOK ↔
        ∀ rc ∈ templateStatuses rFD rMQ ts hVar, rc = EOK) := by
  have h1 : ProcessTemplates rFD rMQ ts hVar =
      lastFailure (templateStatuses rFD rMQ ts hVar) :=
    ProcessTemplatesGo_eq_lastFailureAux rFD rMQ hVar ts 0 EOK
  refine ⟨h1, ?_⟩
  rw [h1, lastFailure, lastFailureAux_eok_iff]
  simp

theorem C2_witness :
    ProcessTemplates (fun _ _ => EOK) (fun _ _ => EOK) [] 9 = EOK :=
  (C2_amended (fun _ _ => EOK) (fun _ _ => EOK) [] 9).2.mpr (by simp [templateStatuses, templateStatusesFrom])

/-! ### C3: configuration entries with a missing template or target field -/

/-- A configuration entry with no template path. -/
def eC3 : ConfigEntry :=
  { template := none, type := none, target := some "tg",
    append := false, keep_open := false, trigger := ["x"] }

/-- Claim C3 as stated is false: SetupTemplate adds a Template to the
registry even for an entry whose template field is missing, instead of
skipping the entry. -/
theorem C3_counterexample :
    eC3.template = none ∧
      (SetupTemplate (fun _ => 0) (fun _ => EOK) eC3 []).2.length = 1 ∧
      (SetupTemplate (fun _ => 0) (fun _ => EOK) eC3 []).2.length ≠ 0 := by
  refine ⟨rfl, rfl, ?_⟩
  decide

/-- Claim C3 amended: an entry with a missing template or target field is
not skipped: SetupTemplate unconditionally builds the Template (storing
the missing field as null) and prepends it to the registry with status
EOK, leaving other entries unaffected; the missing field only surfaces
later, as an ENOENT failure of every render of that Template. -/
theorem C3_amended (find : String → Nat) (notify : Nat → Int)
    (e : ConfigEntry) (ts : List Template) :
    SetupTemplate find notify e ts = (EOK, newTemplate find notify e :: ts) ∧
      ((e.template = none ∨ e.target = none) →
        (∀ tf env, PrintTemplateFD (newTemplate find notify e) tf env =
            (ENOENT, newTemplate find notify e, tf)) ∧
          (∀ varFd sb menv, PrintTemplateMQ varFd (newTemplate find notify e) sb menv =
            (ENOENT, newTemplate find notify e, sb, none))) := by
  refine ⟨rfl, fun h => ⟨fun tf env => ?_, fun varFd sb menv => ?_⟩⟩
  · rcases h with h | h
    · exact PrintTemplateFD_no_src_name _ tf env h
    · exact PrintTemplateFD_no_target _ tf env h
  · rcases h with h | h
    · exact PrintTemplateMQ_no_src_name varFd _ sb menv h
    · exact PrintTemplateMQ_no_target varFd _ sb menv h

theorem C3_witness :
    PrintTemplateFD (newTemplate (fun _ => 0) (fun _ => EOK) eC3) ⟨[], 0⟩
        ⟨1, 1, EOK, []⟩ =
      (ENOENT, newTemplate (fun _ => 0) (fun _ => EOK) eC3, ⟨[], 0⟩) :=
  ((C3_amended (fun _ => 0) (fun _ => EOK) eC3 []).2 (Or.inl rfl)).1 ⟨[], 0⟩ ⟨1, 1, EOK, []⟩

/-! ### C4: append versus overwrite semantics of the Stream sink -/

/-- A Stream template with append off and the sink closed. -/
def tC4 : Template :=
  { pTriggers := [], templateFileName := some "tmpl", target := some "tgt",
    type := TemplateType.TMPL_FD, fd := -1, mq := 0,
    keep_open := false, append := false }

/-- A target file holding three bytes from an earlier, longer render. -/
def tfC4 : TargetFile := ⟨[1, 2, 3], 0⟩

/-- Both opens succeed and the render writes the single byte 9. -/
def envC4 : FDEnv := ⟨3, 4, EOK, [9]⟩

/-- Claim C4 as stated is false: with append off, opening the target does
not discard its prior content (the open flags carry no truncation), so a
one-byte render over a three-byte file leaves the stale trailing bytes
2, 3 in place instead of producing just the rendered byte. -/
theorem C4_counterexample :
    tC4.append = false ∧
      (PrintTemplateFD tC4 tfC4 envC4).2.2.data = [9, 2, 3] ∧
      (PrintTemplateFD tC4 tfC4 envC4).2.2.data ≠ envC4.renderOut := by
  refine ⟨rfl, rfl, ?_⟩
  decide

/-- Claim C4 amended: with appendMode false a fresh open of the target
writes from offset zero in place, without truncation — the new bytes
overwrite the prefix and any stale suffix of a longer earlier render
survives; with appendMode true the open uses O_APPEND and renders
accumulate at the end of the target. -/
theorem C4_amended (t : Template) (tf : TargetFile) (env : FDEnv) (f g : String)
    (hf : t.templateFileName = some f) (hg : t.target = some g)
    (hfd : t.fd = -1) (hs : env.srcFd > 0) (ht : env.tgtFd > 0) :
    (t.append = false →
        (PrintTemplateFD t tf env).2.2.data =
          env.renderOut ++ tf.data.drop env.renderOut.length) ∧
      (t.append = true →
        (PrintTemplateFD t tf env).2.2.data = tf.data ++ env.renderOut) := by
  refine ⟨fun ha => ?_, fun ha => ?_⟩ <;>
    simp [PrintTemplateFD, hf, hg, hfd, hs, ht, ha, fdWrite_zero, fdWrite_at_length]

theorem C4_witness :
    (PrintTemplateFD tC4 tfC4 envC4).2.2.data =
      envC4.renderOut ++ tfC4.data.drop envC4.renderOut.length :=
  (C4_amended tC4 tfC4 envC4 "tmpl" "tgt" rfl rfl rfl (by decide) (by decide)).1 rfl

/-! ### C5: failed opens during a Stream render -/

/-- A Stream template with the sink closed. -/
def tC5 : Template :=
  { pTriggers := [], templateFileName := some "tmpl", target := some "tgt",
    type := TemplateType.TMPL_FD, fd := -1, mq := 0,
    keep_open := false, append := false }

def tfC5 : TargetFile := ⟨[1, 2, 3], 0⟩

/-- The template source fails to open, the target opens as descriptor 4. -/
def envC5 : FDEnv := ⟨-1, 4, EOK, []⟩

/-- Claim C5 as stated is false: when the source open fails but the
target open succeeds, the call fails with ENOENT and no render happens,
yet the sink state is not unchanged — the template's descriptor goes
from closed (-1) to the freshly opened target descriptor. -/
theorem C5_counterexample :
    tC5.fd = -1 ∧
      (PrintTemplateFD tC5 tfC5 envC5).1 = ENOENT ∧
      (PrintTemplateFD tC5 tfC5 envC5).2.2.data = tfC5.data ∧
      (PrintTemplateFD tC5 tfC5 envC5).2.1.fd = 4 ∧
      (PrintTemplateFD tC5 tfC5 envC5).2.1.fd ≠ -1 := by
  refine ⟨rfl, rfl, rfl, rfl, ?_⟩
  decide

/-- Claim C5 amended: if either open fails the call returns ENOENT and no
render is attempted (the target content is untouched), but the sink
state is not necessarily unchanged: when the sink was closed, the
target-open result is stored in it — so a successful target open paired
with a failed source open leaves the sink holding the open target
descriptor. -/
theorem C5_amended (t : Template) (tf : TargetFile) (env : FDEnv) (f g : String)
    (hf : t.templateFileName = some f) (hg : t.target = some g)
    (h : ¬(env.srcFd > 0 ∧ (if t.fd = -1 then env.tgtFd else t.fd) > 0)) :
    (PrintTemplateFD t tf env).1 = ENOENT ∧
      (PrintTemplateFD t tf env).2.2.data = tf.data ∧
      (PrintTemplateFD t tf env).2.1.fd =
        (if t.fd = -1 then env.tgtFd else t.fd) := by
  by_cases hfd : t.fd = -1
  · rw [if_pos hfd] at h ⊢
    simp [PrintTemplateFD, hf, hg, hfd, h]
  · rw [if_neg hfd] at h ⊢
    simp [PrintTemplateFD, hf, hg, hfd, h]

theorem C5_witness :
    (PrintTemplateFD tC5 tfC5 envC5).1 = ENOENT ∧
      (PrintTemplateFD tC5 tfC5 envC5).2.2.data = tfC5.data ∧
      (PrintTemplateFD tC5 tfC5 envC5).2.1.fd =
        (if tC5.fd = -1 then envC5.tgtFd else tC5.fd) :=
  C5_amended tC5 tfC5 envC5 "tmpl" "tgt" rfl rfl (by decide)

/-! ### C6: keep-open lifecycle of the Stream sink -/

/-- Claim C6: with keepOpen false the sink descriptor is closed after any
render attempt, whatever the render status; with keepOpen true a sink
opened by a first render keeps the same open descriptor through a second
render (no reopen: the second outcome is independent of the second
target-open result). -/
theorem C6_holds :
    (∀ (t : Template) (tf : TargetFile) (env : FDEnv) (f g : String),
        t.templateFileName = some f → t.target = some g →
        t.keep_open = false → env.srcFd > 0 →
        (if t.fd = -1 then env.tgtFd else t.fd) > 0 →
        (PrintTemplateFD t tf env).2.1.fd = -1) ∧
      (∀ (t : Template) (tf : TargetFile) (env1 env2 : FDEnv) (f g : String),
        t.templateFileName = some f → t.target = some g →
        t.keep_open = true → t.fd = -1 →
        env1.srcFd > 0 → env1.tgtFd > 0 → env2.srcFd > 0 →
        (PrintTemplateFD t tf env1).2.1.fd = env1.tgtFd ∧
          (PrintTemplateFD (PrintTemplateFD t tf env1).2.1
              (PrintTemplateFD t tf env1).2.2 env2).2.1.fd = env1.tgtFd) := by
  constructor
  · intro t tf env f g hf hg hk hs ht
    by_cases hfd : t.fd = -1
    · rw [if_pos hfd] at ht
      simp [PrintTemplateFD, hf, hg, hfd, hs, ht, hk]
    · rw [if_neg hfd] at ht
      simp [PrintTemplateFD, hf, hg, hfd, hs, ht, hk]
  · intro t tf env1 env2 f g hf hg hk hfd h1 h2 h3
    have hstep : (PrintTemplateFD t tf env1).2.1 = { t with fd := env1.tgtFd } := by
      simp [PrintTemplateFD, hf, hg, hfd, h1, h2, hk]
    have hne : env1.tgtFd ≠ -1 := by omega
    refine ⟨by rw [hstep], ?_⟩
    rw [hstep]
    simp [PrintTemplateFD, hf, hg, hne, h2, h3, hk]

/-- A Stream template with keepOpen off. -/
def tC6 : Template :=
  { pTriggers := [], templateFileName := some "tmpl", target := some "tgt",
    type := TemplateType.TMPL_FD, fd := -1, mq := 0,
    keep_open := false, append := false }

def tfC6 : TargetFile := ⟨[], 0⟩

def envC6 : FDEnv := ⟨3, 4, EOK, [1]⟩

theorem C6_witness :
    (PrintTemplateFD tC6 tfC6 envC6).2.1.fd = -1 :=
  C6_holds.1 tC6 tfC6 envC6 "tmpl" "tgt" rfl rfl rfl (by decide) (by decide)

/-! ### C7: Queue sink close-on-failure and open-failure status -/

/-- Claim C7: for a Queue template whose render succeeded, a failed send
or keepOpen false closes the queue handle (sink state -1); and when the
queue cannot be opened at all (cached handle closed and mq open failing)
the call returns EBADF and sends no message. -/
theorem C7_holds :
    ∀ (varFd : Int) (t : Template) (sb : ScratchBuf) (env : MQEnv) (f g : String),
      t.templateFileName = some f → t.target = some g →
      varFd > 0 → env.srcFd > 0 → env.renderStatus = EOK →
      ((((if t.mq ≤ 0 then env.mqOpenFd else t.mq) > 0) →
          ((env.sendOk = false ∧ env.sendErrno ≠ EOK) ∨ t.keep_open = false) →
          (PrintTemplateMQ varFd t sb env).2.1.mq = -1) ∧
        (t.mq ≤ 0 → env.mqOpenFd ≤ 0 →
          (PrintTemplateMQ varFd t sb env).1 = EBADF ∧
            (PrintTemplateMQ varFd t sb env).2.2.2 = none)) := by
  intro varFd t sb env f g hf hg hv hs hr
  constructor
  · intro hm hc
    by_cases hmq : t.mq ≤ 0
    · rw [if_pos hmq] at hm
      rcases hc with ⟨hsend, herr⟩ | hko
      · simp [PrintTemplateMQ, hf, hg, hv, hs, hr, hmq, hm, hsend, herr]
      · simp [PrintTemplateMQ, hf, hg, hv, hs, hr, hmq, hm, hko]
    · rw [if_neg hmq] at hm
      rcases hc with ⟨hsend, herr⟩ | hko
      · simp [PrintTemplateMQ, hf, hg, hv, hs, hr, hmq, hm, hsend, herr]
      · simp [PrintTemplateMQ, hf, hg, hv, hs, hr, hmq, hm, hko]
  · intro hmq hopen
    have hno : ¬(env.mqOpenFd > 0) := by omega
    simp [PrintTemplateMQ, hf, hg, hv, hs, hr, hmq, hno]

/-- A Queue template with the queue handle closed. -/
def tC7 : Template :=
  { pTriggers := [], templateFileName := some "tmpl", target := some "/q",
    type := TemplateType.TMPL_MQ, fd := -1, mq := 0,
    keep_open := true, append := false }

def sbC7 : ScratchBuf := ⟨[0, 0], 0⟩

/-- Render succeeds but the queue open fails. -/
def envC7 : MQEnv := ⟨3, EOK, [1], -1, true, 0⟩

theorem C7_witness :
    (PrintTemplateMQ 7 tC7 sbC7 envC7).1 = EBADF ∧
      (PrintTemplateMQ 7 tC7 sbC7 envC7).2.2.2 = none :=
  (C7_holds 7 tC7 sbC7 envC7 "tmpl" "/q" rfl rfl (by decide) (by decide) rfl).2
    (by decide) (by decide)

/-! ### C8: scratch-buffer rewind and stale bytes in the sent message -/

theorem takeWhile_ne_append_replicate (l : List Nat) (n : Nat)
    (h : ∀ b ∈ l, b ≠ 0) :
    (l ++ List.replicate n 0).takeWhile (fun b => b ≠ 0) = l := by
  induction l with
  | nil =>
      cases n with
      | zero => rfl
      | succ k => rfl
  | cons a l ih =>
      have ha : a ≠ 0 := h a (List.mem_cons_self _ _)
      have ih' := ih (fun b hb => h b (List.mem_cons_of_mem _ hb))
      have hpa : decide (a ≠ 0) = true := by simp [ha]
      simp only [List.cons_append, List.takeWhile_cons]
      rw [if_pos hpa, ih']

theorem PrintTemplateMQ_buffer (varFd : Int) (t : Template) (sb : ScratchBuf)
    (env : MQEnv) (f g : String)
    (hf : t.templateFileName = some f) (hg : t.target = some g)
    (hv : varFd > 0) (hs : env.srcFd > 0) :
    (PrintTemplateMQ varFd t sb env).2.2.1 =
      { data := fdWrite sb.data 0 env.renderOut, ofs := env.renderOut.length } := by
  simp only [PrintTemplateMQ, hf, hg]
  rw [if_pos hv, if_pos hs]
  split
  · split <;> (split <;> rfl)
  · rfl

theorem PrintTemplateMQ_msg (varFd : Int) (t : Template) (sb : ScratchBuf)
    (env : MQEnv) (f g : String)
    (hf : t.templateFileName = some f) (hg : t.target = some g)
    (hv : varFd > 0) (hs : env.srcFd > 0) (hr : env.renderStatus = EOK)
    (hm : (if t.mq ≤ 0 then env.mqOpenFd else t.mq) > 0) :
    (PrintTemplateMQ varFd t sb env).2.2.2 =
      some ((fdWrite sb.data 0 env.renderOut).takeWhile (fun b => b ≠ 0)) := by
  simp only [PrintTemplateMQ, hf, hg]
  rw [if_pos hv, if_pos hs, if_pos hr, if_pos hm]

/-- A Queue template with keepOpen on and the queue handle closed. -/
def tC8 : Template :=
  { pTriggers := [], templateFileName := some "tmpl", target := some "/q",
    type := TemplateType.TMPL_MQ, fd := -1, mq := 0,
    keep_open := true, append := false }

/-- The initial four-byte scratch buffer, all zeros. -/
def sbC8 : ScratchBuf := ⟨[0, 0, 0, 0], 0⟩

/-- First (longer) render: three bytes 1,2,3; send succeeds. -/
def env1C8 : MQEnv := ⟨3, EOK, [1, 2, 3], 5, true, 0⟩

/-- Second (shorter) render: one byte 7; send succeeds. -/
def env2C8 : MQEnv := ⟨3, EOK, [7], 9, true, 0⟩

/-- The state after the first Queue render. -/
def midC8 : Int × Template × ScratchBuf × Option (List Nat) :=
  PrintTemplateMQ 7 tC8 sbC8 env1C8

/-- Claim C8 as stated is false: after a three-byte render, a one-byte
render rewinds the buffer and overwrites its first byte, but the sent
message is the buffer up to its first NUL and so carries the stale bytes
2, 3 of the earlier longer render along with the new byte 7. -/
theorem C8_counterexample :
    env2C8.renderOut = [7] ∧
      (PrintTemplateMQ 7 midC8.2.1 midC8.2.2.1 env2C8).2.2.2 = some [7, 2, 3] ∧
      (PrintTemplateMQ 7 midC8.2.1 midC8.2.2.1 env2C8).2.2.2 ≠
        some env2C8.renderOut := by
  refine ⟨rfl, rfl, ?_⟩
  decide

/-- Claim C8 amended: every Queue render rewinds the scratch buffer and
writes from offset zero (the buffer becomes the render's bytes followed
by the old content beyond them, independent of the previous offset), and
the sent message is the buffer bytes up to the first NUL — which equals
exactly the render's bytes only when the bytes are nonzero and the old
content beyond them is zeros (e.g. no longer earlier render); a shorter
non-NUL-terminated render after a longer one sends stale trailing
bytes. -/
theorem C8_amended (varFd : Int) (t : Template) (sb : ScratchBuf) (env : MQEnv)
    (f g : String)
    (hf : t.templateFileName = some f) (hg : t.target = some g)
    (hv : varFd > 0) (hs : env.srcFd > 0) :
    ((PrintTemplateMQ varFd t sb env).2.2.1.data =
        env.renderOut ++ sb.data.drop env.renderOut.length ∧
      (PrintTemplateMQ varFd t sb env).2.2.1.ofs = env.renderOut.length) ∧
      (env.renderStatus = EOK → (if t.mq ≤ 0 then env.mqOpenFd else t.mq) > 0 →
        (PrintTemplateMQ varFd t sb env).2.2.2 =
          some ((env.renderOut ++ sb.data.drop env.renderOut.length).takeWhile
            (fun b => b ≠ 0))) ∧
      (env.renderStatus = EOK → (if t.mq ≤ 0 then env.mqOpenFd else t.mq) > 0 →
        (∀ b ∈ env.renderOut, b ≠ 0) →
        ∀ n, sb.data.drop env.renderOut.length = List.replicate n 0 →
          (PrintTemplateMQ varFd t sb env).2.2.2 = some env.renderOut) := by
  refine ⟨⟨?_, ?_⟩, fun hr hm => ?_, fun hr hm hnz n hdrop => ?_⟩
  · rw [PrintTemplateMQ_buffer varFd t sb env f g hf hg hv hs, fdWrite_zero]
  · rw [PrintTemplateMQ_buffer varFd t sb env f g hf hg hv hs]
  · rw [PrintTemplateMQ_msg varFd t sb env f g hf hg hv hs hr hm, fdWrite_zero]
  · rw [PrintTemplateMQ_msg varFd t sb env f g hf hg hv hs hr hm, fdWrite_zero,
      hdrop, takeWhile_ne_append_replicate _ n hnz]

theorem C8_witness :
    (PrintTemplateMQ 7 tC8 sbC8 env1C8).2.2.2 = some env1C8.renderOut :=
  (C8_amended 7 tC8 sbC8 env1C8 "tmpl" "/q" rfl rfl (by decide) (by decide)).2.2
    rfl (by decide) (by decide) 1 (by decide)

/-! ### C9: the aggregate of SetupTriggerNotifications -/

/-- Claim C9 (on the computed aggregate): the value the C function
computes in its local result for a non-empty trigger list is the
last-failure-wins aggregate of the per-trigger statuses: EOK exactly
when every per-trigger setup succeeded, and a failing trigger's status
otherwise.  The C function then falls off the end without returning this
value (missing return statement), which is the code bug. -/
theorem C9_aggregate (find : String → Nat) (notify : Nat → Int)
    (tv : TriggerVar) (rest : List TriggerVar) :
    (SetupTriggerNotificationsLocal find notify (tv :: rest)).1 =
        lastFailure (triggerStatuses find notify (tv :: rest)) ∧
      ((∀ rc ∈ triggerStatuses find notify (tv :: rest), rc = EOK) →
        (SetupTriggerNotificationsLocal find notify (tv :: rest)).1 = EOK) ∧
      ((∃ rc ∈ triggerStatuses find notify (tv :: rest), rc ≠ EOK) →
        (SetupTriggerNotificationsLocal find notify (tv :: rest)).1 ∈
            triggerStatuses find notify (tv :: rest) ∧
          (SetupTriggerNotificationsLocal find notify (tv :: rest)).1 ≠ EOK) := by
  have h1 : (SetupTriggerNotificationsLocal find notify (tv :: rest)).1 =
      lastFailureAux EOK (triggerStatuses find notify (tv :: rest)) :=
    setupTriggersGo_fst find notify (tv :: rest) EOK
  refine ⟨h1, fun h => ?_, fun h => ?_⟩
  · rw [h1]
    exact lastFailureAux_eok_of_all EOK _ h
  · rw [h1]
    exact lastFailureAux_mem EOK _ h

def fC9 : String → Nat := fun s => if s = "b" then 7 else 0

def nC9 : Nat → Int := fun _ => EOK

def tvA : TriggerVar := ⟨0, "a"⟩

def tvB : TriggerVar := ⟨0, "b"⟩

theorem C9_witness :
    (SetupTriggerNotificationsLocal fC9 nC9 [tvA, tvB]).1 ∈
        triggerStatuses fC9 nC9 [tvA, tvB] ∧
      (SetupTriggerNotificationsLocal fC9 nC9 [tvA, tvB]).1 ≠ EOK :=
  (C9_aggregate fC9 nC9 tvA [tvB]).2.2 ⟨ENOENT, by decide, by decide⟩

/-! ### C10: VAR_INVALID notifications never render -/

/-- Claim C10: a dispatch whose notified handle is VAR_INVALID performs
no render and returns EINVAL; and a trigger whose name fails to resolve
gets ENOENT with its stored handle left equal to VAR_INVALID — so an
unresolved trigger can never cause a render. -/
theorem C10_holds :
    (∀ (rFD rMQ : Nat → Int) (t : Template),
        ProcessTemplate rFD rMQ t VAR_INVALID = (EINVAL, 0)) ∧
      (∀ (find : String → Nat) (notify : Nat → Int) (tv : TriggerVar),
        find tv.name = VAR_INVALID →
        (SetupTriggerNotification find notify tv).1 = ENOENT ∧
          (SetupTriggerNotification find notify tv).2.hVar = VAR_INVALID) := by
  constructor
  · intro rFD rMQ t
    simp [ProcessTemplate]
  · intro find notify tv h
    simp [SetupTriggerNotification, h]

theorem C10_witness :
    (SetupTriggerNotification (fun _ => 0) (fun _ => EOK) ⟨3, "x"⟩).1 = ENOENT ∧
      (SetupTriggerNotification (fun _ => 0) (fun _ => EOK) ⟨3, "x"⟩).2.hVar =
        VAR_INVALID :=
  C10_holds.2 (fun _ => 0) (fun _ => EOK) ⟨3, "x"⟩ rfl

end TemplateSvc
